import Mathlib

/-!
Shallow embedding of the cortex repository's dispatch layer:
`mcp_server.py` (tool-call handler for `show_popup` / `log_activity`) and
`mac_screenshot_server.py` (HTTP handler for `/screenshot`, `/health`,
`/hello`).  External processes, the filesystem and clocks are modelled as
explicit oracle parameters; every observable side effect (spawned commands,
appended log chunks, filesystem updates) is returned as data.
-/

/-- A Python value appearing in a tool-call `arguments` mapping.
The two tools only ever consume strings and booleans. -/
inductive PyVal where
  | vStr (s : String)
  | vBool (b : Bool)
deriving DecidableEq, Repr

/-- Python `str()` of a value, as used when a value is interpolated into an
f-string (`f"...{title}..."`). -/
def pyStr : PyVal → String
  | .vStr s => s
  | .vBool b => if b then "True" else "False"

/-- Python truthiness of a value, as used by
`'productive' if productive else 'unproductive'`. -/
def truthy : PyVal → Bool
  | .vStr s => !s.isEmpty
  | .vBool b => b

/-- `dict.get(key, default)` on the arguments mapping. -/
def dictGet (args : List (String × PyVal)) (key : String) (dflt : PyVal) : PyVal :=
  (args.lookup key).getD dflt

/-- JSON scalar values produced by the handlers.  The Python code only ever
serialises flat objects of strings, booleans and numbers; the float returned
by `asyncio.get_event_loop().time()` is abstracted to an integer. -/
inductive JVal where
  | jStr (s : String)
  | jBool (b : Bool)
  | jNum (n : Int)
deriving DecidableEq, Repr

/-- The JSON value `json.dumps` writes for an argument value. -/
def jsonOfPyVal : PyVal → JVal
  | .vStr s => .jStr s
  | .vBool b => .jBool b

/-- Hexadecimal digit character (lowercase), for `\uXXXX` escapes. -/
def hexDigit (n : Nat) : Char :=
  match n % 16 with
  | 0 => '0' | 1 => '1' | 2 => '2' | 3 => '3' | 4 => '4'
  | 5 => '5' | 6 => '6' | 7 => '7' | 8 => '8' | 9 => '9'
  | 10 => 'a' | 11 => 'b' | 12 => 'c' | 13 => 'd' | 14 => 'e' | _ => 'f'

/-- Four lowercase hex digits, as in Python's `\uXXXX` string escapes. -/
def hex4 (n : Nat) : List Char :=
  [hexDigit (n / 4096), hexDigit (n / 256), hexDigit (n / 16), hexDigit n]

/-- Escape of a single character under `json.dumps` defaults
(`ensure_ascii=True`): the two mandatory escapes, the short control escapes,
`\uXXXX` for other control and non-ASCII characters, and surrogate pairs for
astral code points. -/
def escChar (c : Char) : List Char :=
  if c = '"' then ['\\', '"']
  else if c = '\\' then ['\\', '\\']
  else if c = '\n' then ['\\', 'n']
  else if c = '\r' then ['\\', 'r']
  else if c = '\t' then ['\\', 't']
  else if c.toNat = 8 then ['\\', 'b']
  else if c.toNat = 12 then ['\\', 'f']
  else if c.toNat < 32 then '\\' :: 'u' :: hex4 c.toNat
  else if c.toNat < 127 then [c]
  else if c.toNat < 65536 then '\\' :: 'u' :: hex4 c.toNat
  else ('\\' :: 'u' :: hex4 (55296 + (c.toNat - 65536) / 1024)) ++
       ('\\' :: 'u' :: hex4 (56320 + (c.toNat - 65536) % 1024))

/-- Escape every character of a string body. -/
def escChars : List Char → List Char
  | [] => []
  | c :: cs => escChar c ++ escChars cs

/-- A JSON string literal: quoted, body escaped. -/
def jsonQuote (s : String) : String :=
  String.mk ('"' :: escChars s.data ++ ['"'])

/-- Decimal digits of a natural number, most significant first. -/
def natDecimal (n : Nat) : List Char :=
  if _h : n < 10 then [hexDigit n]
  else natDecimal (n / 10) ++ [hexDigit (n % 10)]
decreasing_by exact Nat.div_lt_self (by omega) (by omega)

/-- Decimal rendering of an integer, as `json.dumps` writes a number. -/
def intDecimal (i : Int) : String :=
  if i < 0 then String.mk ('-' :: natDecimal i.natAbs) else String.mk (natDecimal i.natAbs)

/-- Serialisation of one JSON scalar. -/
def dumpsVal : JVal → String
  | .jStr s => jsonQuote s
  | .jBool true => "true"
  | .jBool false => "false"
  | .jNum n => intDecimal n

/-- Serialisation of one `key: value` member, Python default separator `": "`. -/
def dumpsMember (p : String × JVal) : String :=
  jsonQuote p.1 ++ ": " ++ dumpsVal p.2

/-- `", ".join(...)`: members separated by Python's default item separator. -/
def joinComma : List String → String
  | [] => ""
  | [x] => x
  | x :: y :: xs => x ++ ", " ++ joinComma (y :: xs)

/-- `json.dumps` of a flat object with Python's default separators
(`", "` between members). -/
def dumpsObj (fields : List (String × JVal)) : String :=
  "\x7b" ++ joinComma (fields.map dumpsMember) ++ "\x7d"

/-- Outcome of `subprocess.run(..., capture_output=True, text=True)`. -/
structure CmdResult where
  returncode : Int
  stdout : String
  stderr : String
deriving DecidableEq, Repr

/-- Outcome of a bounded-wait subprocess invocation: it either completes
(with exit status and captured output) or `subprocess.TimeoutExpired` is
raised after the child has been killed. -/
inductive RunOutcome where
  | completed (r : CmdResult)
  | timedOut
deriving DecidableEq, Repr

/-- An MCP `TextContent` response item (`type="text"`). -/
structure TextContent where
  type : String
  text : String
deriving DecidableEq, Repr

/-- Result of one `handle_call_tool` invocation, together with its observable
side effects: the argv/timeout of every spawned external process and every
chunk appended to the activity log file. -/
structure ToolCallResult where
  contents : List TextContent
  spawned : List (List String × Nat)
  appended : List String
deriving DecidableEq, Repr

/-- Wrap a string in single-quote characters (code point 39), as the
f-string `f"... \x7btitle\x7d ..."` does around the title and message. -/
def squote (s : String) : String :=
  String.mk (Char.ofNat 39 :: s.data ++ [Char.ofNat 39])

/-- The AppleScript source built by the `show_popup` branch
(the f-string between the triple quotes, including its surrounding
newline/indent whitespace). -/
def popupScript (title message severity : String) : String :=
  "\n            display alert \"" ++ title ++ "\" message \"" ++ message ++
    "\" as " ++ severity ++ " giving up after 10\n            "

/-- The activity-log record built by the `log_activity` branch, in the
insertion order of the Python dict literal. -/
def logEntry (loopTime : Int) (activity productive app_name : PyVal) :
    List (String × JVal) :=
  [("timestamp", .jNum loopTime),
   ("activity", jsonOfPyVal activity),
   ("productive", jsonOfPyVal productive),
   ("app_name", jsonOfPyVal app_name)]

/-- `handle_call_tool` from `mcp_server.py`.  Oracle parameters stand for the
environment: `popupOutcome` is what `subprocess.run(["osascript", ...],
timeout=15)` does, `loopTime` is `asyncio.get_event_loop().time()`, and
`fsError` is `none` when the directory creation and append succeed, or
`some msg` when they raise an `OSError` rendered as `msg` by `str(e)`. -/
def handle_call_tool (name : String) (arguments : List (String × PyVal))
    (popupOutcome : RunOutcome) (loopTime : Int) (fsError : Option String) :
    ToolCallResult :=
  if name = "show_popup" then
    let title := pyStr (dictGet arguments "title" (.vStr "Productivity Alert"))
    let message := pyStr (dictGet arguments "message"
      (.vStr "Please return to your productive work"))
    let severity := pyStr (dictGet arguments "severity" (.vStr "warning"))
    let applescript := popupScript title message severity
    let spawned := [(["osascript", "-e", applescript], 15)]
    match popupOutcome with
    | .completed r =>
        if r.returncode = 0 then
          ⟨[⟨"text", "Popup displayed successfully: " ++ squote title ++
              " - " ++ squote message⟩], spawned, []⟩
        else
          ⟨[⟨"text", "Failed to display popup: " ++ r.stderr⟩], spawned, []⟩
    | .timedOut =>
        ⟨[⟨"text", "Popup display timed out"⟩], spawned, []⟩
  else if name = "log_activity" then
    let activity := dictGet arguments "activity" (.vStr "Unknown activity")
    let productive := dictGet arguments "productive" (.vBool false)
    let app_name := dictGet arguments "app_name" (.vStr "Unknown app")
    let log_entry := logEntry loopTime activity productive app_name
    match fsError with
    | none =>
        ⟨[⟨"text", "Activity logged: " ++ pyStr activity ++ " (" ++
            (if truthy productive then "productive" else "unproductive") ++
            ") in " ++ pyStr app_name⟩], [],
          [dumpsObj log_entry ++ "\n"]⟩
    | some e =>
        ⟨[⟨"text", "Failed to log activity: " ++ e⟩], [], []⟩
  else
    ⟨[⟨"text", "Unknown tool: " ++ name⟩], [], []⟩

/-- A wall-clock reading, the fields `datetime.datetime.now()` exposes. -/
structure Datetime where
  year : Nat
  month : Nat
  day : Nat
  hour : Nat
  minute : Nat
  second : Nat
  microsecond : Nat
deriving DecidableEq, Repr

/-- Two-digit zero-padded decimal field (`%02d`). -/
def pad2 (n : Nat) : List Char :=
  [hexDigit (n / 10 % 10), hexDigit (n % 10)]

/-- Four-digit zero-padded decimal field (`%04d`). -/
def pad4 (n : Nat) : List Char :=
  [hexDigit (n / 1000 % 10), hexDigit (n / 100 % 10), hexDigit (n / 10 % 10),
   hexDigit (n % 10)]

/-- Six-digit zero-padded decimal field (`%06d`). -/
def pad6 (n : Nat) : List Char :=
  [hexDigit (n / 100000 % 10), hexDigit (n / 10000 % 10), hexDigit (n / 1000 % 10),
   hexDigit (n / 100 % 10), hexDigit (n / 10 % 10), hexDigit (n % 10)]

/-- `datetime.now().isoformat()`: `YYYY-MM-DDTHH:MM:SS`, with `.ffffff`
appended exactly when the microsecond field is nonzero. -/
def isoformat (d : Datetime) : String :=
  String.mk (pad4 d.year ++ '-' :: pad2 d.month ++ '-' :: pad2 d.day ++
    'T' :: pad2 d.hour ++ ':' :: pad2 d.minute ++ ':' :: pad2 d.second ++
    (if d.microsecond = 0 then [] else '.' :: pad6 d.microsecond))

/-- `datetime.now().strftime("%Y%m%d_%H%M%S")`. -/
def strftimeCompact (d : Datetime) : String :=
  String.mk (pad4 d.year ++ pad2 d.month ++ pad2 d.day ++
    '_' :: pad2 d.hour ++ pad2 d.minute ++ pad2 d.second)

/-- Decidable recogniser for the ISO-8601 combined date-time shapes
`isoformat` can emit: `YYYY-MM-DDTHH:MM:SS` or `YYYY-MM-DDTHH:MM:SS.ffffff`
with every placeholder a decimal digit. -/
def isIso8601 (s : String) : Bool :=
  match s.data with
  | [y1, y2, y3, y4, '-', o1, o2, '-', d1, d2, 'T',
     h1, h2, ':', n1, n2, ':', s1, s2] =>
      [y1, y2, y3, y4, o1, o2, d1, d2, h1, h2, n1, n2, s1, s2].all Char.isDigit
  | [y1, y2, y3, y4, '-', o1, o2, '-', d1, d2, 'T',
     h1, h2, ':', n1, n2, ':', s1, s2, '.', f1, f2, f3, f4, f5, f6] =>
      [y1, y2, y3, y4, o1, o2, d1, d2, h1, h2, n1, n2, s1, s2,
       f1, f2, f3, f4, f5, f6].all Char.isDigit
  | _ => false

/-- The standard base64 alphabet, in index order. -/
def b64Table : List Char :=
  "ABCDEFGHIJKLMNOPQRSTUVWXYZabcdefghijklmnopqrstuvwxyz0123456789+/".data

/-- Character at a 6-bit index of the base64 alphabet. -/
def b64Char (n : Nat) : Char :=
  b64Table.getD n 'A'

/-- Index of a character in the base64 alphabet (64 when absent). -/
def b64Val (c : Char) : Nat :=
  b64Table.indexOf c

/-- `base64.b64encode` on a byte list: standard base64 with `=` padding,
processing three input bytes into four alphabet characters. -/
def b64EncodeList : List Nat → List Char
  | [] => []
  | [a] => [b64Char (a / 4), b64Char (a % 4 * 16), '=', '=']
  | [a, b] => [b64Char (a / 4), b64Char (a % 4 * 16 + b / 16),
               b64Char (b % 16 * 4), '=']
  | a :: b :: c :: rest =>
      b64Char (a / 4) :: b64Char (a % 4 * 16 + b / 16) ::
      b64Char (b % 16 * 4 + c / 64) :: b64Char (c % 64) :: b64EncodeList rest

/-- `base64.b64decode` on well-formed input: each quartet of alphabet
characters yields three bytes, a quartet ending in `=` or `==` yields the
final two bytes or one byte. -/
def b64DecodeList : List Char → List Nat
  | c1 :: c2 :: c3 :: c4 :: rest =>
      if c3 = '=' then
        [b64Val c1 * 4 + b64Val c2 / 16]
      else if c4 = '=' then
        [b64Val c1 * 4 + b64Val c2 / 16,
         b64Val c2 % 16 * 16 + b64Val c3 / 4]
      else
        (b64Val c1 * 4 + b64Val c2 / 16) ::
        (b64Val c2 % 16 * 16 + b64Val c3 / 4) ::
        (b64Val c3 % 4 * 64 + b64Val c4) :: b64DecodeList rest
  | _ => []

/-- An HTTP response at the granularity the claims observe: the status code,
and the JSON object written to the body when the handler writes one
(`send_error 404` writes an HTML error page instead, modelled as `none`). -/
structure HttpResponse where
  status : Nat
  jsonBody : Option (List (String × JVal))
deriving DecidableEq, Repr

/-- A filesystem snapshot: the byte content at each path, if the path
exists. -/
def Fs : Type := String → Option (List Nat)

/-- The temporary screenshot path built from the first clock reading. -/
def tempScreenshotName (now1 : Datetime) : String :=
  "/tmp/simulator_screenshot_" ++ strftimeCompact now1 ++ ".png"

/-- `handle_screenshot_request` from `mac_screenshot_server.py`.  `now1` is
the clock reading used for the temporary filename, `now2` the later reading
used for the response timestamp; `capture` is the completed result of
`subprocess.run(["xcrun", "simctl", "io", "booted", "screenshot", path],
timeout=10)` and `fs` the filesystem state after that command ran.  A
non-zero exit raises `RuntimeError`, a missing file raises
`FileNotFoundError`; both are caught by the surrounding handler and turned
into a 500 JSON error body, so no fault escapes.  On success the file is
read, base64-encoded, removed, and a 200 JSON body is written. -/
def handle_screenshot_request (now1 now2 : Datetime) (capture : CmdResult)
    (fs : Fs) : HttpResponse × Fs :=
  let temp_filename := tempScreenshotName now1
  if capture.returncode ≠ 0 then
    (⟨500, some [("success", .jBool false),
       ("error", .jStr ("Simulator screenshot failed: " ++ capture.stderr))]⟩,
     fs)
  else
    match fs temp_filename with
    | none =>
        (⟨500, some [("success", .jBool false),
           ("error", .jStr ("[Errno 2] No such file or directory: " ++
             squote temp_filename))]⟩, fs)
    | some image_bytes =>
        let b64_image := String.mk (b64EncodeList image_bytes)
        (⟨200, some [("success", .jBool true), ("image", .jStr b64_image),
           ("timestamp", .jStr (isoformat now2))]⟩,
         fun p => if p = temp_filename then none else fs p)

/-- `ScreenshotHandler.do_GET`: route on the request path. -/
def do_GET (path : String) (now1 now2 : Datetime) (capture : CmdResult)
    (fs : Fs) : HttpResponse × Fs :=
  if path = "/screenshot" then
    handle_screenshot_request now1 now2 capture fs
  else if path = "/health" then
    (⟨200, some [("status", .jStr "healthy"),
       ("server", .jStr "mac_screenshot_server")]⟩, fs)
  else if path = "/hello" then
    (⟨200, some [("message", .jStr "Hello from Mac!")]⟩, fs)
  else
    (⟨404, none⟩, fs)

/-! ### Helper lemmas: strings -/

lemma data_append (a b : String) : (a ++ b).data = a.data ++ b.data := rfl

/-! ### Helper lemmas: json.dumps output is newline-free -/

lemma hexDigit_lt16_ne_newline : ∀ m < 16, hexDigit m ≠ '\n' := by decide

lemma hexDigit_eq_mod (k : Nat) : hexDigit k = hexDigit (k % 16) := by
  unfold hexDigit
  rw [show k % 16 % 16 = k % 16 from by omega]

lemma hexDigit_ne_newline (k : Nat) : hexDigit k ≠ '\n' := by
  rw [hexDigit_eq_mod]
  exact hexDigit_lt16_ne_newline _ (Nat.mod_lt _ (by omega))

lemma newline_ne_hexDigit (k : Nat) : ('\n' : Char) ≠ hexDigit k :=
  fun h => hexDigit_ne_newline k h.symm

set_option maxHeartbeats 1000000 in
lemma escChar_ne_newline (c : Char) : '\n' ∉ escChar c := by
  unfold escChar
  split_ifs with h1 h2 h3 h4 h5 h6 h7 h8 h9 h10
  · decide
  · decide
  · decide
  · decide
  · decide
  · decide
  · decide
  · simp [hex4, newline_ne_hexDigit]
  · simp only [List.mem_singleton]
    exact fun hh => h3 hh.symm
  · simp [hex4, newline_ne_hexDigit]
  · simp [hex4, List.mem_append, newline_ne_hexDigit]

lemma escChars_ne_newline (cs : List Char) : '\n' ∉ escChars cs := by
  induction cs with
  | nil => simp [escChars]
  | cons c cs ih => simp [escChars, List.mem_append, escChar_ne_newline c, ih]

lemma natDecimal_ne_newline (n : Nat) : '\n' ∉ natDecimal n := by
  induction n using natDecimal.induct with
  | case1 n h => simp [natDecimal, h, newline_ne_hexDigit]
  | case2 n h ih =>
      rw [natDecimal]
      simp [h, List.mem_append, ih, newline_ne_hexDigit]

lemma intDecimal_ne_newline (i : Int) : '\n' ∉ (intDecimal i).data := by
  unfold intDecimal
  split_ifs
  · show '\n' ∉ '-' :: natDecimal i.natAbs
    simp [natDecimal_ne_newline]
  · show '\n' ∉ natDecimal i.natAbs
    exact natDecimal_ne_newline _

lemma jsonQuote_ne_newline (s : String) : '\n' ∉ (jsonQuote s).data := by
  show '\n' ∉ '"' :: (escChars s.data ++ ['"'])
  simp [List.mem_append, escChars_ne_newline]

lemma dumpsVal_ne_newline (v : JVal) : '\n' ∉ (dumpsVal v).data := by
  cases v with
  | jStr s => exact jsonQuote_ne_newline s
  | jBool b => cases b <;> decide
  | jNum n => exact intDecimal_ne_newline n

lemma dumpsMember_ne_newline (p : String × JVal) : '\n' ∉ (dumpsMember p).data := by
  unfold dumpsMember
  rw [data_append, data_append]
  simp [List.mem_append, jsonQuote_ne_newline, dumpsVal_ne_newline]

lemma joinComma_ne_newline (l : List String) (h : ∀ x ∈ l, '\n' ∉ x.data) :
    '\n' ∉ (joinComma l).data := by
  induction l using joinComma.induct with
  | case1 => simp [joinComma]
  | case2 x => exact h x (by simp)
  | case3 x y xs ih =>
      rw [joinComma, data_append, data_append]
      simp only [List.mem_append]
      push_neg
      refine ⟨⟨h x (by simp), by decide⟩, ?_⟩
      exact ih fun z hz => h z (by simp_all)

lemma dumpsObj_ne_newline (fields : List (String × JVal)) :
    '\n' ∉ (dumpsObj fields).data := by
  unfold dumpsObj
  rw [data_append, data_append]
  simp only [List.mem_append]
  push_neg
  refine ⟨⟨by decide, ?_⟩, by decide⟩
  exact joinComma_ne_newline _ fun x hx => by
    obtain ⟨p, _, rfl⟩ := List.mem_map.mp hx
    exact dumpsMember_ne_newline p

/-! ### Helper lemmas: lengths and counts -/

lemma length_append' (a b : String) : (a ++ b).length = a.length + b.length := by
  show (a ++ b).data.length = a.data.length + b.data.length
  rw [data_append, List.length_append]

lemma squote_length (s : String) : (squote s).length = s.length + 2 := by
  show (Char.ofNat 39 :: (s.data ++ [Char.ofNat 39])).length = s.data.length + 2
  simp

lemma count_newline_of_line (line : String) (h : '\n' ∉ line.data) :
    (line ++ "\n").data.count '\n' = 1 := by
  rw [data_append, List.count_append, List.count_eq_zero.mpr h]
  rfl

/-! ### Helper lemmas: isoformat -/

lemma hexDigit_lt10_isDigit : ∀ m < 10, (hexDigit m).isDigit = true := by decide

lemma hexDigit_mod10_isDigit (x : Nat) : (hexDigit (x % 10)).isDigit = true :=
  hexDigit_lt10_isDigit _ (Nat.mod_lt _ (by omega))

/-- Whatever the clock reads, `isoformat` emits a string in ISO-8601
combined date-time shape. -/
lemma isoformat_isIso8601 (d : Datetime) : isIso8601 (isoformat d) = true := by
  by_cases h : d.microsecond = 0
  · simp only [isoformat, pad4, pad2, pad6, h, if_true, List.append_nil]
    simp only [isIso8601]
    simp [List.all_cons, hexDigit_mod10_isDigit]
  · simp only [isoformat, pad4, pad2, pad6, h, if_false]
    simp only [isIso8601]
    simp [List.all_cons, hexDigit_mod10_isDigit]

/-! ### Helper lemmas: the show_popup branch -/

/-- Whatever the outcome of the external command, the `show_popup` branch
spawns exactly the `osascript` invocation built from the three (defaulted)
arguments, with a 15 second bound. -/
lemma show_popup_spawned (args : List (String × PyVal)) (oc : RunOutcome)
    (t : Int) (fe : Option String) :
    (handle_call_tool "show_popup" args oc t fe).spawned =
      [(["osascript", "-e",
         popupScript (pyStr (dictGet args "title" (.vStr "Productivity Alert")))
           (pyStr (dictGet args "message" (.vStr "Please return to your productive work")))
           (pyStr (dictGet args "severity" (.vStr "warning")))], 15)] := by
  cases oc with
  | completed r =>
      by_cases hr : r.returncode = 0 <;> simp [handle_call_tool, hr]
  | timedOut => simp [handle_call_tool]

/-! ### Helper lemmas: base64 -/

lemma b64Val_b64Char : ∀ n < 64, b64Val (b64Char n) = n := by decide

lemma b64Char_ne_pad : ∀ n < 64, b64Char n ≠ '=' := by decide

/-- Decoding inverts encoding on byte lists. -/
lemma b64_decode_encode (bs : List Nat) (hb : ∀ b ∈ bs, b < 256) :
    b64DecodeList (b64EncodeList bs) = bs := by
  induction bs using b64EncodeList.induct with
  | case1 => rfl
  | case2 a =>
      have ha : a < 256 := hb a (by simp)
      simp only [b64EncodeList, b64DecodeList, if_true]
      rw [b64Val_b64Char _ (by omega), b64Val_b64Char _ (by omega)]
      simp only [List.cons.injEq, and_true]
      omega
  | case3 a b =>
      have ha : a < 256 := hb a (by simp)
      have hbb : b < 256 := hb b (by simp)
      simp only [b64EncodeList, b64DecodeList]
      rw [if_neg (b64Char_ne_pad _ (by omega))]
      simp only [if_true]
      rw [b64Val_b64Char _ (by omega), b64Val_b64Char _ (by omega),
        b64Val_b64Char _ (by omega)]
      simp only [List.cons.injEq, and_true]
      omega
  | case4 a b c rest ih =>
      have ha : a < 256 := hb a (by simp)
      have hbb : b < 256 := hb b (by simp)
      have hc : c < 256 := hb c (by simp)
      have hrest : ∀ x ∈ rest, x < 256 := fun x hx => hb x (by simp [hx])
      simp only [b64EncodeList, b64DecodeList]
      rw [if_neg (b64Char_ne_pad _ (by omega)),
        if_neg (b64Char_ne_pad _ (by omega))]
      rw [b64Val_b64Char _ (by omega), b64Val_b64Char _ (by omega),
        b64Val_b64Char _ (by omega), b64Val_b64Char _ (by omega)]
      rw [ih hrest]
      simp only [List.cons.injEq, and_true]
      omega

/-! ### Claim theorems -/

/-- C1 counterexample: calling the tool handler with name `show_popup` and an
empty arguments mapping (so both required parameters, `title` and `message`,
are absent) does spawn an external process, and returns a success text rather
than an `InvalidArgument` failure — refuting the claim that dispatch returns
`InvalidArgument` without spawning when a required parameter is missing. -/
theorem show_popup_missing_required_still_spawns :
    (([] : List (String × PyVal)).lookup "title" = none) ∧
    (([] : List (String × PyVal)).lookup "message" = none) ∧
    (handle_call_tool "show_popup" [] (.completed ⟨0, "", ""⟩) 0 none).spawned ≠ [] ∧
    (handle_call_tool "show_popup" [] (.completed ⟨0, "", ""⟩) 0 none).contents =
      [⟨"text", "Popup displayed successfully: " ++ squote "Productivity Alert" ++
        " - " ++ squote "Please return to your productive work"⟩] := by
  refine ⟨rfl, rfl, ?_, ?_⟩ <;> simp [handle_call_tool, dictGet, pyStr]

/-- C1 amended: when a required parameter is absent from the arguments
mapping — each one independently, whatever the other arguments hold — the
handler substitutes its built-in default (`title` ↦ "Productivity Alert",
`message` ↦ "Please return to your productive work", `activity` ↦
"Unknown activity", `productive` ↦ `False`) and proceeds: `show_popup`
still spawns the external alert process with the defaulted value in place,
and `log_activity` still appends a record with the defaulted value in
place; no `InvalidArgument` failure exists in the code. -/
theorem missing_required_params_use_defaults (oc : RunOutcome) (t : Int) :
    (∀ args : List (String × PyVal), args.lookup "title" = none →
      (handle_call_tool "show_popup" args oc t none).spawned =
        [(["osascript", "-e",
           popupScript "Productivity Alert"
             (pyStr (dictGet args "message"
               (.vStr "Please return to your productive work")))
             (pyStr (dictGet args "severity" (.vStr "warning")))], 15)]) ∧
    (∀ args : List (String × PyVal), args.lookup "message" = none →
      (handle_call_tool "show_popup" args oc t none).spawned =
        [(["osascript", "-e",
           popupScript (pyStr (dictGet args "title" (.vStr "Productivity Alert")))
             "Please return to your productive work"
             (pyStr (dictGet args "severity" (.vStr "warning")))], 15)]) ∧
    (∀ args : List (String × PyVal), args.lookup "activity" = none →
      (handle_call_tool "log_activity" args oc t none).appended =
        [dumpsObj (logEntry t (.vStr "Unknown activity")
           (dictGet args "productive" (.vBool false))
           (dictGet args "app_name" (.vStr "Unknown app"))) ++ "\n"]) ∧
    (∀ args : List (String × PyVal), args.lookup "productive" = none →
      (handle_call_tool "log_activity" args oc t none).appended =
        [dumpsObj (logEntry t (dictGet args "activity" (.vStr "Unknown activity"))
           (.vBool false)
           (dictGet args "app_name" (.vStr "Unknown app"))) ++ "\n"]) := by
  refine ⟨?_, ?_, ?_, ?_⟩
  · intro args h
    rw [show_popup_spawned]
    simp [dictGet, pyStr, h]
  · intro args h
    rw [show_popup_spawned]
    simp [dictGet, pyStr, h]
  · intro args h
    simp [handle_call_tool, dictGet, h]
  · intro args h
    simp [handle_call_tool, dictGet, h]

/-- Witness for the amended C1 theorem: each required parameter omitted on
its own, the other one supplied. -/
theorem missing_required_params_use_defaults_witness :
    ([("message", PyVal.vStr "M")].lookup "title" = none) ∧
    ([("title", PyVal.vStr "T")].lookup "message" = none) ∧
    ([("productive", PyVal.vBool true)].lookup "activity" = none) ∧
    ([("activity", PyVal.vStr "a")].lookup "productive" = none) ∧
    ((handle_call_tool "show_popup" [("message", PyVal.vStr "M")]
        (.completed ⟨0, "", ""⟩) 0 none).spawned =
      [(["osascript", "-e",
         popupScript "Productivity Alert"
           (pyStr (dictGet [("message", PyVal.vStr "M")] "message"
             (.vStr "Please return to your productive work")))
           (pyStr (dictGet [("message", PyVal.vStr "M")] "severity"
             (.vStr "warning")))], 15)]) ∧
    ((handle_call_tool "show_popup" [("title", PyVal.vStr "T")]
        (.completed ⟨0, "", ""⟩) 0 none).spawned =
      [(["osascript", "-e",
         popupScript (pyStr (dictGet [("title", PyVal.vStr "T")] "title"
             (.vStr "Productivity Alert")))
           "Please return to your productive work"
           (pyStr (dictGet [("title", PyVal.vStr "T")] "severity"
             (.vStr "warning")))], 15)]) ∧
    ((handle_call_tool "log_activity" [("productive", PyVal.vBool true)]
        (.completed ⟨0, "", ""⟩) 0 none).appended =
      [dumpsObj (logEntry 0 (.vStr "Unknown activity")
         (dictGet [("productive", PyVal.vBool true)] "productive" (.vBool false))
         (dictGet [("productive", PyVal.vBool true)] "app_name"
           (.vStr "Unknown app"))) ++ "\n"]) ∧
    ((handle_call_tool "log_activity" [("activity", PyVal.vStr "a")]
        (.completed ⟨0, "", ""⟩) 0 none).appended =
      [dumpsObj (logEntry 0 (dictGet [("activity", PyVal.vStr "a")] "activity"
           (.vStr "Unknown activity")) (.vBool false)
         (dictGet [("activity", PyVal.vStr "a")] "app_name"
           (.vStr "Unknown app"))) ++ "\n"]) :=
  ⟨by decide, by decide, by decide, by decide,
   (missing_required_params_use_defaults (.completed ⟨0, "", ""⟩) 0).1
     [("message", PyVal.vStr "M")] (by decide),
   (missing_required_params_use_defaults (.completed ⟨0, "", ""⟩) 0).2.1
     [("title", PyVal.vStr "T")] (by decide),
   (missing_required_params_use_defaults (.completed ⟨0, "", ""⟩) 0).2.2.1
     [("productive", PyVal.vBool true)] (by decide),
   (missing_required_params_use_defaults (.completed ⟨0, "", ""⟩) 0).2.2.2
     [("activity", PyVal.vStr "a")] (by decide)⟩

/-- C2: for every tool name outside the fixed set `{show_popup,
log_activity}`, the handler returns the single text response
`"Unknown tool: <name>"` — explicitly flagging the name as unrecognized —
and its effect lists are empty: no external process is spawned and nothing
is appended to any file. -/
theorem unknown_tool_text_no_effects (name : String)
    (h1 : name ≠ "show_popup") (h2 : name ≠ "log_activity")
    (arguments : List (String × PyVal)) (oc : RunOutcome) (t : Int)
    (fe : Option String) :
    handle_call_tool name arguments oc t fe =
      ⟨[⟨"text", "Unknown tool: " ++ name⟩], [], []⟩ := by
  simp [handle_call_tool, h1, h2]

/-- Witness for the C2 theorem at the name `take_screenshot`. -/
theorem unknown_tool_text_no_effects_witness :
    (("take_screenshot" : String) ≠ "show_popup") ∧
    (("take_screenshot" : String) ≠ "log_activity") ∧
    handle_call_tool "take_screenshot" [] (.completed ⟨0, "", ""⟩) 0 none =
      ⟨[⟨"text", "Unknown tool: " ++ "take_screenshot"⟩], [], []⟩ :=
  ⟨by decide, by decide,
   unknown_tool_text_no_effects "take_screenshot" (by decide) (by decide) []
     (.completed ⟨0, "", ""⟩) 0 none⟩

/-- C5 counterexample: a `show_popup` call supplying the out-of-enumeration
severity `"bogus"` spawns the alert command built with `"bogus"` itself, and
that command differs from the one built with the default `"warning"` — so
unknown severities are not replaced by the default. -/
theorem severity_passed_through_verbatim :
    (("bogus" : String) ∉ ["info", "warning", "critical"]) ∧
    (handle_call_tool "show_popup"
        [("title", .vStr "T"), ("message", .vStr "M"), ("severity", .vStr "bogus")]
        (.completed ⟨0, "", ""⟩) 0 none).spawned =
      [(["osascript", "-e", popupScript "T" "M" "bogus"], 15)] ∧
    popupScript "T" "M" "bogus" ≠ popupScript "T" "M" "warning" := by
  exact ⟨by decide, by decide, by decide⟩

/-- C5 amended: the default severity `"warning"` is used exactly when the
`severity` argument is absent; any supplied severity value — inside or
outside the enumerated set — is interpolated verbatim into the external
alert command. -/
theorem severity_default_only_when_absent
    (args : List (String × PyVal)) (oc : RunOutcome) (t : Int)
    (fe : Option String) (h : args.lookup "severity" = none) :
    ((handle_call_tool "show_popup" args oc t fe).spawned =
      [(["osascript", "-e",
         popupScript (pyStr (dictGet args "title" (.vStr "Productivity Alert")))
           (pyStr (dictGet args "message" (.vStr "Please return to your productive work")))
           "warning"], 15)]) ∧
    (∀ (args2 : List (String × PyVal)) (v : PyVal),
      args2.lookup "severity" = some v →
      (handle_call_tool "show_popup" args2 oc t fe).spawned =
        [(["osascript", "-e",
           popupScript (pyStr (dictGet args2 "title" (.vStr "Productivity Alert")))
             (pyStr (dictGet args2 "message" (.vStr "Please return to your productive work")))
             (pyStr v)], 15)]) := by
  constructor
  · rw [show_popup_spawned]
    simp [dictGet, pyStr, h]
  · intro args2 v hv
    rw [show_popup_spawned]
    simp [dictGet, hv]

/-- Witness for the amended C5 theorem at the empty arguments mapping. -/
theorem severity_default_only_when_absent_witness :
    (([] : List (String × PyVal)).lookup "severity" = none) ∧
    (((handle_call_tool "show_popup" [] (.completed ⟨0, "", ""⟩) 0 none).spawned =
      [(["osascript", "-e",
         popupScript (pyStr (dictGet [] "title" (.vStr "Productivity Alert")))
           (pyStr (dictGet [] "message" (.vStr "Please return to your productive work")))
           "warning"], 15)]) ∧
    (∀ (args2 : List (String × PyVal)) (v : PyVal),
      args2.lookup "severity" = some v →
      (handle_call_tool "show_popup" args2 (.completed ⟨0, "", ""⟩) 0 none).spawned =
        [(["osascript", "-e",
           popupScript (pyStr (dictGet args2 "title" (.vStr "Productivity Alert")))
             (pyStr (dictGet args2 "message" (.vStr "Please return to your productive work")))
             (pyStr v)], 15)])) :=
  ⟨rfl, severity_default_only_when_absent [] (.completed ⟨0, "", ""⟩) 0 none rfl⟩

/-- C7: a `show_popup` invocation has exactly one of three outcomes,
determined by the external command: on timeout the handler reports
`"Popup display timed out"` (the bounded wait killed the process, and — last
conjunct — the response is never a success confirmation); on a non-zero exit
it reports `"Failed to display popup: <stderr>"`; on a zero exit it reports
the success confirmation built from the (defaulted) title and message. -/
theorem show_popup_three_outcomes (arguments : List (String × PyVal))
    (oc : RunOutcome) (t : Int) (fe : Option String) :
    (oc = .timedOut →
      (handle_call_tool "show_popup" arguments oc t fe).contents =
        [⟨"text", "Popup display timed out"⟩]) ∧
    (∀ r, oc = .completed r → r.returncode ≠ 0 →
      (handle_call_tool "show_popup" arguments oc t fe).contents =
        [⟨"text", "Failed to display popup: " ++ r.stderr⟩]) ∧
    (∀ r, oc = .completed r → r.returncode = 0 →
      (handle_call_tool "show_popup" arguments oc t fe).contents =
        [⟨"text", "Popup displayed successfully: " ++
          squote (pyStr (dictGet arguments "title" (.vStr "Productivity Alert"))) ++
          " - " ++
          squote (pyStr (dictGet arguments "message"
            (.vStr "Please return to your productive work")))⟩]) ∧
    (oc = .timedOut → ∀ a b : String,
      (handle_call_tool "show_popup" arguments oc t fe).contents ≠
        [⟨"text", "Popup displayed successfully: " ++ squote a ++ " - " ++
          squote b⟩]) := by
  refine ⟨?_, ?_, ?_, ?_⟩
  · rintro rfl
    simp [handle_call_tool]
  · rintro r rfl hr
    simp [handle_call_tool, hr]
  · rintro r rfl hr
    simp [handle_call_tool, hr]
  · rintro rfl a b heq
    simp only [handle_call_tool, if_pos] at heq
    simp only [List.cons.injEq, TextContent.mk.injEq, and_true, true_and] at heq
    have hlen := congrArg String.length heq
    rw [length_append', length_append', length_append',
      squote_length, squote_length] at hlen
    have h1 : ("Popup display timed out" : String).length = 23 := rfl
    have h2 : ("Popup displayed successfully: " : String).length = 30 := rfl
    have h3 : (" - " : String).length = 3 := rfl
    omega

/-- Witness for the C7 theorem: at a timed-out outcome the handler reports
the timeout text. -/
theorem show_popup_three_outcomes_witness :
    (RunOutcome.timedOut = RunOutcome.timedOut) ∧
    (handle_call_tool "show_popup" [] .timedOut 0 none).contents =
      [⟨"text", "Popup display timed out"⟩] :=
  ⟨rfl, (show_popup_three_outcomes [] .timedOut 0 none).1 rfl⟩

/-- C9: a `log_activity` invocation with supplied activity, productive and
app_name values appends — when the filesystem cooperates — exactly one
newline-terminated line: the serialised JSON record whose four fields
`timestamp`, `activity`, `productive`, `app_name` carry the supplied values;
and on a filesystem failure it returns the textual error
`"Failed to log activity: <msg>"` with nothing appended (the handler is a
total function, so no exception escapes). -/
theorem log_activity_appends_one_json_line
    (args : List (String × PyVal)) (oc : RunOutcome) (t : Int)
    (act app : String) (prod : Bool)
    (h1 : args.lookup "activity" = some (.vStr act))
    (h2 : args.lookup "productive" = some (.vBool prod))
    (h3 : args.lookup "app_name" = some (.vStr app)) :
    (∃ line, (handle_call_tool "log_activity" args oc t none).appended =
        [line ++ "\n"] ∧
      '\n' ∉ line.data ∧
      (line ++ "\n").data.count '\n' = 1 ∧
      ∃ entry, line = dumpsObj entry ∧
        entry.map Prod.fst = ["timestamp", "activity", "productive", "app_name"] ∧
        entry.lookup "timestamp" = some (.jNum t) ∧
        entry.lookup "activity" = some (.jStr act) ∧
        entry.lookup "productive" = some (.jBool prod) ∧
        entry.lookup "app_name" = some (.jStr app)) ∧
    (∀ e, handle_call_tool "log_activity" args oc t (some e) =
      ⟨[⟨"text", "Failed to log activity: " ++ e⟩], [], []⟩) := by
  constructor
  · refine ⟨dumpsObj (logEntry t (.vStr act) (.vBool prod) (.vStr app)),
      ?_, dumpsObj_ne_newline _, count_newline_of_line _ (dumpsObj_ne_newline _),
      logEntry t (.vStr act) (.vBool prod) (.vStr app), rfl, ?_, ?_, ?_, ?_, ?_⟩
    · simp [handle_call_tool, dictGet, h1, h2, h3]
    · simp [logEntry]
    · simp [logEntry, List.lookup]
    · simp [logEntry, List.lookup, jsonOfPyVal]
    · simp [logEntry, List.lookup, jsonOfPyVal]
    · simp [logEntry, List.lookup, jsonOfPyVal]
  · intro e
    simp [handle_call_tool]

/-- Witness for the C9 theorem at the spec's concrete scenario
`log_activity(activity="browsing", productive=false, app_name="Safari")`. -/
theorem log_activity_appends_one_json_line_witness :
    ([("activity", PyVal.vStr "browsing"), ("productive", PyVal.vBool false),
        ("app_name", PyVal.vStr "Safari")].lookup "activity" =
      some (.vStr "browsing")) ∧
    ([("activity", PyVal.vStr "browsing"), ("productive", PyVal.vBool false),
        ("app_name", PyVal.vStr "Safari")].lookup "productive" =
      some (.vBool false)) ∧
    ([("activity", PyVal.vStr "browsing"), ("productive", PyVal.vBool false),
        ("app_name", PyVal.vStr "Safari")].lookup "app_name" =
      some (.vStr "Safari")) ∧
    ((∃ line, (handle_call_tool "log_activity"
        [("activity", PyVal.vStr "browsing"), ("productive", PyVal.vBool false),
         ("app_name", PyVal.vStr "Safari")] (.completed ⟨0, "", ""⟩) 0
        none).appended = [line ++ "\n"] ∧
      '\n' ∉ line.data ∧
      (line ++ "\n").data.count '\n' = 1 ∧
      ∃ entry, line = dumpsObj entry ∧
        entry.map Prod.fst = ["timestamp", "activity", "productive", "app_name"] ∧
        entry.lookup "timestamp" = some (.jNum 0) ∧
        entry.lookup "activity" = some (.jStr "browsing") ∧
        entry.lookup "productive" = some (.jBool false) ∧
        entry.lookup "app_name" = some (.jStr "Safari")) ∧
    (∀ e, handle_call_tool "log_activity"
        [("activity", PyVal.vStr "browsing"), ("productive", PyVal.vBool false),
         ("app_name", PyVal.vStr "Safari")] (.completed ⟨0, "", ""⟩) 0 (some e) =
      ⟨[⟨"text", "Failed to log activity: " ++ e⟩], [], []⟩)) :=
  ⟨by decide, by decide, by decide,
   log_activity_appends_one_json_line
     [("activity", PyVal.vStr "browsing"), ("productive", PyVal.vBool false),
      ("app_name", PyVal.vStr "Safari")] (.completed ⟨0, "", ""⟩) 0
     "browsing" "Safari" false (by decide) (by decide) (by decide)⟩

/-- C10: independently of the other arguments, when `app_name` is omitted
the appended record carries `"Unknown app"`, and when `productive` is
omitted it carries `false`; and for every invocation — whatever optional
arguments were supplied — the appended record contains all four keys in
insertion order. -/
theorem log_activity_optional_defaults (oc : RunOutcome) (t : Int) :
    (∀ args : List (String × PyVal), args.lookup "app_name" = none →
      ∃ entry, (handle_call_tool "log_activity" args oc t none).appended =
          [dumpsObj entry ++ "\n"] ∧
        entry.lookup "app_name" = some (.jStr "Unknown app") ∧
        entry.map Prod.fst =
          ["timestamp", "activity", "productive", "app_name"]) ∧
    (∀ args : List (String × PyVal), args.lookup "productive" = none →
      ∃ entry, (handle_call_tool "log_activity" args oc t none).appended =
          [dumpsObj entry ++ "\n"] ∧
        entry.lookup "productive" = some (.jBool false) ∧
        entry.map Prod.fst =
          ["timestamp", "activity", "productive", "app_name"]) ∧
    (∀ args : List (String × PyVal),
      ∃ entry, (handle_call_tool "log_activity" args oc t none).appended =
          [dumpsObj entry ++ "\n"] ∧
        entry.map Prod.fst =
          ["timestamp", "activity", "productive", "app_name"]) := by
  refine ⟨?_, ?_, ?_⟩
  · intro args h
    refine ⟨logEntry t (dictGet args "activity" (.vStr "Unknown activity"))
      (dictGet args "productive" (.vBool false)) (.vStr "Unknown app"),
      ?_, ?_, ?_⟩
    · simp [handle_call_tool, dictGet, h]
    · simp [logEntry, List.lookup, jsonOfPyVal]
    · simp [logEntry]
  · intro args h
    refine ⟨logEntry t (dictGet args "activity" (.vStr "Unknown activity"))
      (.vBool false) (dictGet args "app_name" (.vStr "Unknown app")),
      ?_, ?_, ?_⟩
    · simp [handle_call_tool, dictGet, h]
    · simp [logEntry, List.lookup, jsonOfPyVal]
    · simp [logEntry]
  · intro args
    refine ⟨logEntry t (dictGet args "activity" (.vStr "Unknown activity"))
      (dictGet args "productive" (.vBool false))
      (dictGet args "app_name" (.vStr "Unknown app")), ?_, ?_⟩
    · simp [handle_call_tool, dictGet]
    · simp [logEntry]

/-- Witness for the C10 theorem: `app_name` omitted with `productive`
supplied, `productive` omitted with `app_name` supplied, and all four keys
present when both optionals are supplied. -/
theorem log_activity_optional_defaults_witness :
    ([("activity", PyVal.vStr "browsing"),
        ("productive", PyVal.vBool true)].lookup "app_name" = none) ∧
    ([("activity", PyVal.vStr "browsing"),
        ("app_name", PyVal.vStr "Safari")].lookup "productive" = none) ∧
    (∃ entry, (handle_call_tool "log_activity"
        [("activity", PyVal.vStr "browsing"), ("productive", PyVal.vBool true)]
        (.completed ⟨0, "", ""⟩) 0 none).appended = [dumpsObj entry ++ "\n"] ∧
      entry.lookup "app_name" = some (.jStr "Unknown app") ∧
      entry.map Prod.fst = ["timestamp", "activity", "productive", "app_name"]) ∧
    (∃ entry, (handle_call_tool "log_activity"
        [("activity", PyVal.vStr "browsing"), ("app_name", PyVal.vStr "Safari")]
        (.completed ⟨0, "", ""⟩) 0 none).appended = [dumpsObj entry ++ "\n"] ∧
      entry.lookup "productive" = some (.jBool false) ∧
      entry.map Prod.fst = ["timestamp", "activity", "productive", "app_name"]) ∧
    (∃ entry, (handle_call_tool "log_activity"
        [("activity", PyVal.vStr "browsing"), ("productive", PyVal.vBool true),
         ("app_name", PyVal.vStr "Safari")]
        (.completed ⟨0, "", ""⟩) 0 none).appended = [dumpsObj entry ++ "\n"] ∧
      entry.map Prod.fst = ["timestamp", "activity", "productive", "app_name"]) :=
  ⟨by decide, by decide,
   (log_activity_optional_defaults (.completed ⟨0, "", ""⟩) 0).1
     [("activity", PyVal.vStr "browsing"), ("productive", PyVal.vBool true)]
     (by decide),
   (log_activity_optional_defaults (.completed ⟨0, "", ""⟩) 0).2.1
     [("activity", PyVal.vStr "browsing"), ("app_name", PyVal.vStr "Safari")]
     (by decide),
   (log_activity_optional_defaults (.completed ⟨0, "", ""⟩) 0).2.2
     [("activity", PyVal.vStr "browsing"), ("productive", PyVal.vBool true),
      ("app_name", PyVal.vStr "Safari")]⟩

/-- C3: when the capture command exits 0 and has written the byte list
`bytes` (length N) to the temporary path, `GET /screenshot` yields a 200
response whose `image` field base64-decodes to exactly those N bytes, whose
`timestamp` field is an ISO-8601 string, and afterwards the temporary
screenshot file no longer exists. -/
theorem screenshot_success_roundtrip
    (now1 now2 : Datetime) (capture : CmdResult) (fs : Fs) (bytes : List Nat)
    (h0 : capture.returncode = 0)
    (hfs : fs (tempScreenshotName now1) = some bytes)
    (hb : ∀ b ∈ bytes, b < 256) :
    (do_GET "/screenshot" now1 now2 capture fs).1.status = 200 ∧
    (∃ body, (do_GET "/screenshot" now1 now2 capture fs).1.jsonBody = some body ∧
      (∃ img, body.lookup "image" = some (.jStr img) ∧
        b64DecodeList img.data = bytes ∧
        (b64DecodeList img.data).length = bytes.length) ∧
      (∃ ts, body.lookup "timestamp" = some (.jStr ts) ∧ isIso8601 ts = true)) ∧
    (do_GET "/screenshot" now1 now2 capture fs).2 (tempScreenshotName now1) =
      none := by
  have hstep : do_GET "/screenshot" now1 now2 capture fs =
      (⟨200, some [("success", .jBool true),
         ("image", .jStr (String.mk (b64EncodeList bytes))),
         ("timestamp", .jStr (isoformat now2))]⟩,
       fun p => if p = tempScreenshotName now1 then none else fs p) := by
    simp [do_GET, handle_screenshot_request, h0, hfs]
  rw [hstep]
  refine ⟨rfl, ⟨_, rfl, ⟨String.mk (b64EncodeList bytes), ?_, ?_, ?_⟩,
    ⟨isoformat now2, ?_, isoformat_isIso8601 now2⟩⟩, ?_⟩
  · simp [List.lookup]
  · exact b64_decode_encode bytes hb
  · rw [show (String.mk (b64EncodeList bytes)).data = b64EncodeList bytes from rfl,
      b64_decode_encode bytes hb]
  · simp [List.lookup]
  · simp

/-- Witness for the C3 theorem: a mocked capture command that exited 0 after
writing the three bytes `[7, 8, 9]` to the temporary path. -/
theorem screenshot_success_roundtrip_witness :
    ((⟨0, "", ""⟩ : CmdResult).returncode = 0) ∧
    ((fun p => if p = tempScreenshotName ⟨2025, 1, 1, 0, 0, 0, 0⟩ then
        some [7, 8, 9] else none : Fs) (tempScreenshotName ⟨2025, 1, 1, 0, 0, 0, 0⟩) =
      some [7, 8, 9]) ∧
    (∀ b ∈ [7, 8, 9], b < 256) ∧
    ((do_GET "/screenshot" ⟨2025, 1, 1, 0, 0, 0, 0⟩ ⟨2025, 1, 1, 0, 0, 0, 0⟩
        ⟨0, "", ""⟩ (fun p => if p = tempScreenshotName ⟨2025, 1, 1, 0, 0, 0, 0⟩ then
          some [7, 8, 9] else none)).1.status = 200 ∧
     (∃ body, (do_GET "/screenshot" ⟨2025, 1, 1, 0, 0, 0, 0⟩ ⟨2025, 1, 1, 0, 0, 0, 0⟩
        ⟨0, "", ""⟩ (fun p => if p = tempScreenshotName ⟨2025, 1, 1, 0, 0, 0, 0⟩ then
          some [7, 8, 9] else none)).1.jsonBody = some body ∧
      (∃ img, body.lookup "image" = some (.jStr img) ∧
        b64DecodeList img.data = [7, 8, 9] ∧
        (b64DecodeList img.data).length = ([7, 8, 9] : List Nat).length) ∧
      (∃ ts, body.lookup "timestamp" = some (.jStr ts) ∧ isIso8601 ts = true)) ∧
     (do_GET "/screenshot" ⟨2025, 1, 1, 0, 0, 0, 0⟩ ⟨2025, 1, 1, 0, 0, 0, 0⟩
        ⟨0, "", ""⟩ (fun p => if p = tempScreenshotName ⟨2025, 1, 1, 0, 0, 0, 0⟩ then
          some [7, 8, 9] else none)).2
        (tempScreenshotName ⟨2025, 1, 1, 0, 0, 0, 0⟩) = none) :=
  ⟨rfl, by simp, by decide,
   screenshot_success_roundtrip ⟨2025, 1, 1, 0, 0, 0, 0⟩ ⟨2025, 1, 1, 0, 0, 0, 0⟩
     ⟨0, "", ""⟩ _ [7, 8, 9] rfl (by simp) (by decide)⟩

/-- C4: when the capture command exits non-zero, `GET /screenshot` yields a
500 response whose JSON body has `success: false` and an `error` string
containing the command's stderr text; the raised `RuntimeError` is caught at
the handler boundary (the handler is a total function into responses), so no
fault escapes to the caller. -/
theorem screenshot_failure_returns_500
    (now1 now2 : Datetime) (capture : CmdResult) (fs : Fs)
    (h : capture.returncode ≠ 0) :
    (do_GET "/screenshot" now1 now2 capture fs).1.status = 500 ∧
    (do_GET "/screenshot" now1 now2 capture fs).1.jsonBody =
      some [("success", .jBool false),
            ("error", .jStr ("Simulator screenshot failed: " ++ capture.stderr))] ∧
    (∃ pre, "Simulator screenshot failed: " ++ capture.stderr =
      pre ++ capture.stderr) := by
  refine ⟨?_, ?_, ⟨"Simulator screenshot failed: ", rfl⟩⟩ <;>
    simp [do_GET, handle_screenshot_request, h]

/-- Witness for the C4 theorem at a capture command exiting 1 with stderr
`"boom"`. -/
theorem screenshot_failure_returns_500_witness :
    ((⟨1, "", "boom"⟩ : CmdResult).returncode ≠ 0) ∧
    ((do_GET "/screenshot" ⟨2025, 1, 1, 0, 0, 0, 0⟩ ⟨2025, 1, 1, 0, 0, 0, 0⟩
        ⟨1, "", "boom"⟩ (fun _ => none)).1.status = 500 ∧
     (do_GET "/screenshot" ⟨2025, 1, 1, 0, 0, 0, 0⟩ ⟨2025, 1, 1, 0, 0, 0, 0⟩
        ⟨1, "", "boom"⟩ (fun _ => none)).1.jsonBody =
      some [("success", .jBool false),
            ("error", .jStr ("Simulator screenshot failed: " ++ "boom"))] ∧
     (∃ pre, "Simulator screenshot failed: " ++ "boom" = pre ++ "boom")) :=
  ⟨by decide,
   screenshot_failure_returns_500 ⟨2025, 1, 1, 0, 0, 0, 0⟩ ⟨2025, 1, 1, 0, 0, 0, 0⟩
     ⟨1, "", "boom"⟩ (fun _ => none) (by decide)⟩

/-- C6 counterexample: the path `/hello` is neither `/screenshot` nor
`/health`, yet the server responds 200, not 404 — the routing table has a
third live path the claim does not account for. -/
theorem hello_path_answers_200 :
    (("/hello" : String) ≠ "/screenshot") ∧
    (("/hello" : String) ≠ "/health") ∧
    (do_GET "/hello" ⟨2025, 1, 1, 0, 0, 0, 0⟩ ⟨2025, 1, 1, 0, 0, 0, 0⟩
      ⟨0, "", ""⟩ (fun _ => none)).1.status = 200 ∧
    (do_GET "/hello" ⟨2025, 1, 1, 0, 0, 0, 0⟩ ⟨2025, 1, 1, 0, 0, 0, 0⟩
      ⟨0, "", ""⟩ (fun _ => none)).1.status ≠ 404 := by
  exact ⟨by decide, by decide, rfl, by decide⟩

/-- C6 amended: every GET path other than `/screenshot`, `/health` and
`/hello` is answered with status 404, and the filesystem is untouched. -/
theorem unknown_path_answers_404 (path : String)
    (now1 now2 : Datetime) (capture : CmdResult) (fs : Fs)
    (h1 : path ≠ "/screenshot") (h2 : path ≠ "/health") (h3 : path ≠ "/hello") :
    do_GET path now1 now2 capture fs = (⟨404, none⟩, fs) := by
  simp [do_GET, h1, h2, h3]

/-- Witness for the amended C6 theorem at the path `/favicon.ico`. -/
theorem unknown_path_answers_404_witness :
    (("/favicon.ico" : String) ≠ "/screenshot") ∧
    (("/favicon.ico" : String) ≠ "/health") ∧
    (("/favicon.ico" : String) ≠ "/hello") ∧
    do_GET "/favicon.ico" ⟨2025, 1, 1, 0, 0, 0, 0⟩ ⟨2025, 1, 1, 0, 0, 0, 0⟩
      ⟨0, "", ""⟩ (fun _ => none) = (⟨404, none⟩, fun _ => none) :=
  ⟨by decide, by decide, by decide,
   unknown_path_answers_404 "/favicon.ico" ⟨2025, 1, 1, 0, 0, 0, 0⟩
     ⟨2025, 1, 1, 0, 0, 0, 0⟩ ⟨0, "", ""⟩ (fun _ => none)
     (by decide) (by decide) (by decide)⟩

/-- C8: base64 round-trip identity — decoding the transportable text form
produced by `b64EncodeList` recovers byte-for-byte the original captured
bytes, for every byte list. -/
theorem base64_roundtrip (bytes : List Nat) (hb : ∀ b ∈ bytes, b < 256) :
    b64DecodeList (b64EncodeList bytes) = bytes :=
  b64_decode_encode bytes hb

/-- Witness for the C8 theorem at the byte list `[0, 100, 255]`. -/
theorem base64_roundtrip_witness :
    (∀ b ∈ [0, 100, 255], b < 256) ∧
    b64DecodeList (b64EncodeList [0, 100, 255]) = [0, 100, 255] :=
  ⟨by decide, base64_roundtrip [0, 100, 255] (by decide)⟩
